import Mathlib

/-
Verification development for the unified voice-agent hook
(useUnifiedVoiceAgent): a client-side session lifecycle state machine,
speaking-activity reconciler, transcript aggregator, and resource cleanup
coordinator driven by transport events.

The hook state (React useState values plus useRef cells) is embedded as one
record, HookState. Each operation of the hook (startInference, stopInference,
clearTranscription, saveTranscription) and each transport event handler
(Connected, Disconnected, ActiveSpeakersChanged, TrackPublished,
TrackUnpublished, TrackSubscribed, TranscriptionReceived) is embedded as a
pure function on HookState. Asynchronous collaborator results (the agent
lookup, the provisioning call, the transport connect, the microphone enable,
and the cleanup steps) are passed in as explicit Except / fault parameters.
Side effects that cross the system boundary (provisioning call, transport
connect, backend session-end, track stop, transport disconnect, DOM audio
element removal, toasts, logs) are recorded in an effect list. Timers
(the 500ms setTimeout scheduled by the transcription handler) are modelled
as a pending list of fire times consumed by an explicit timeline runner.
-/

/-- The lifecycle states of the hook, from the INFERENCE_STATES constant. -/
inductive InferenceState where
  | IDLE
  | CONNECTING
  | ACTIVE
  | ERROR
deriving DecidableEq

/-- Speaker role of a transcript entry. -/
inductive Speaker where
  | user
  | agent
deriving DecidableEq

/-- A transcription segment as delivered by the transport
(text plus the final flag). -/
structure Segment where
  text : String
  final : Bool
deriving DecidableEq

/-- The session descriptor returned by the provisioning call
(VoiceSession in the source). -/
structure VoiceSession where
  sessionId : String
  roomName : String
  token : String
  url : String
  participantIdentity : String
  status : String
deriving DecidableEq

/-- The transport room handle held in roomRef; we keep the local
participant identity the event handlers compare against. -/
structure RoomHandle where
  localIdentity : String
deriving DecidableEq

/-- A DOM audio element; srcObject is true for media-sink elements created
by track.attach (a MediaStream is assigned), false otherwise. -/
structure AudioElement where
  srcObject : Bool
deriving DecidableEq

/-- A transcript entry (TranscriptionEntry in the source). The timestamp is
embedded as seconds since midnight; duration and the constant source field
are omitted, confidence is carried through participantId-style optionals. -/
structure TranscriptionEntry where
  id : String
  text : String
  speaker : Speaker
  timestamp : Nat
  isFinal : Bool
  participantId : Option String
  trackId : Option String
deriving DecidableEq

/-- The complete mutable state of the hook: the useState values, the useRef
cells, the document audio elements, and the pending 500ms reset timers
scheduled via setTimeout (recorded by fire time, in schedule order). -/
structure HookState where
  inferenceState : InferenceState
  isLoading : Bool
  isMicOn : Bool
  isConnected : Bool
  isUserSpeaking : Bool
  isTranscribing : Bool
  transcription : List TranscriptionEntry
  transcriptionUpdateTrigger : Nat
  roomRef : Option RoomHandle
  sessionRef : Option VoiceSession
  audioTrackRef : Option Unit
  transcriptionIdCounter : Nat
  audioElements : List AudioElement
  pendingResets : List Nat
deriving DecidableEq

/-- The initial hook state: all useState initial values, null refs, a zero
id counter, no attached audio elements, no pending timers. -/
def initialHookState : HookState where
  inferenceState := InferenceState.IDLE
  isLoading := false
  isMicOn := false
  isConnected := false
  isUserSpeaking := false
  isTranscribing := false
  transcription := []
  transcriptionUpdateTrigger := 0
  roomRef := none
  sessionRef := none
  audioTrackRef := none
  transcriptionIdCounter := 0
  audioElements := []
  pendingResets := []

/-- Observable effects crossing the system boundary, recorded in issue
order: collaborator calls, resource releases, toasts and error logs. -/
inductive Effect where
  | getAgentCall
  | provisionCall
  | transportConnect
  | micEnable
  | backendSessionEnd
  | trackStop
  | transportDisconnect
  | removeAudioElement
  | toastError (msg : String)
  | toastSuccess (msg : String)
  | logError (msg : String)
deriving DecidableEq

/-- The speaker-attribution test of the transcription handler:
participant.identity === room.localParticipant.identity. -/
def segIsUser (localId : String) (participant : Option String) : Bool :=
  decide (participant = some localId)

/-- Builds the TranscriptionEntry appended for one segment, with the id
trans_N drawn from the id counter. -/
def mkEntry (now : Nat) (isUser : Bool) (participant : Option String)
    (trackSid : Option String) (ctr : Nat) (seg : Segment) : TranscriptionEntry where
  id := "trans_" ++ toString ctr
  text := seg.text
  speaker := if isUser then Speaker.user else Speaker.agent
  timestamp := now
  isFinal := seg.final
  participantId := participant
  trackId := trackSid

/-- The entries produced for a batch of segments starting at a given id
counter value, in segment order. -/
def mkEntries (now : Nat) (localId : String) (participant : Option String)
    (trackSid : Option String) : Nat → List Segment → List TranscriptionEntry
  | _, [] => []
  | ctr, seg :: rest =>
      mkEntry now (segIsUser localId participant) participant trackSid ctr seg
        :: mkEntries now localId participant trackSid (ctr + 1) rest

/-- The per-segment body of the TranscriptionReceived handler: user-attributed
segments set the speaking and transcribing flags; every segment appends an
entry, bumps the id counter and the change counter; a final user-attributed
segment schedules a reset of both flags 500ms later (setTimeout with no
stored handle, hence append-only pendingResets). -/
def handleSegment (now : Nat) (localId : String) (participant : Option String)
    (trackSid : Option String) (seg : Segment) (s : HookState) : HookState :=
  let isUser := segIsUser localId participant
  let s1 := if isUser then { s with isUserSpeaking := true, isTranscribing := true } else s
  let entry := mkEntry now isUser participant trackSid s1.transcriptionIdCounter seg
  let s2 := { s1 with
    transcription := s1.transcription ++ [entry]
    transcriptionIdCounter := s1.transcriptionIdCounter + 1
    transcriptionUpdateTrigger := s1.transcriptionUpdateTrigger + 1 }
  if seg.final && isUser then
    { s2 with pendingResets := s2.pendingResets ++ [now + 500] }
  else s2

/-- The TranscriptionReceived handler: segments.forEach over the batch. -/
def handleTranscriptionReceived (now : Nat) (localId : String)
    (participant : Option String) (trackSid : Option String)
    (segs : List Segment) (s : HookState) : HookState :=
  segs.foldl (fun st seg => handleSegment now localId participant trackSid seg st) s

/-- The transport events consumed by the room event listeners. The Connected
event carries the result of the microphone-enable attempt made inside its
handler. TrackUnsubscribed only calls track.detach (no hook state change)
and is omitted. -/
inductive VoiceEvent where
  | connected (micOk : Bool)
  | disconnected
  | activeSpeakersChanged (speakers : List String)
  | trackPublished (identity : String) (audioKind : Bool)
  | trackUnpublished (identity : String) (audioKind : Bool)
  | trackSubscribed (audioKind : Bool)
  | localTrackMuted
  | transcriptionReceived (participant : Option String) (trackSid : Option String)
      (segs : List Segment)
deriving DecidableEq

/-- The RoomEvent.Connected handler: unconditionally sets connected, ACTIVE
and clears loading; then attempts the microphone enable, setting isMicOn on
success, only toasting on failure. There is no check of the current state and
no per-attempt identifier. -/
def onConnected (micOk : Bool) (s : HookState) : HookState :=
  let s1 := { s with
    isConnected := true
    inferenceState := InferenceState.ACTIVE
    isLoading := false }
  if micOk then { s1 with isMicOn := true } else s1

/-- Dispatch of one transport event through the registered listeners. -/
def handleEvent (now : Nat) (localId : String) (e : VoiceEvent) (s : HookState) : HookState :=
  match e with
  | VoiceEvent.connected micOk => onConnected micOk s
  | VoiceEvent.disconnected =>
      { s with
        isConnected := false
        inferenceState := InferenceState.IDLE
        isMicOn := false
        isUserSpeaking := false }
  | VoiceEvent.activeSpeakersChanged speakers =>
      if speakers.contains localId then { s with isUserSpeaking := true }
      else { s with isUserSpeaking := false }
  | VoiceEvent.trackPublished identity audioKind =>
      if identity = localId ∧ audioKind = true then { s with isUserSpeaking := true }
      else s
  | VoiceEvent.trackUnpublished identity audioKind =>
      if identity = localId ∧ audioKind = true then { s with isUserSpeaking := false }
      else s
  | VoiceEvent.trackSubscribed audioKind =>
      if audioKind then
        { s with audioElements := s.audioElements ++ [{ srcObject := true }] }
      else s
  | VoiceEvent.localTrackMuted => { s with isUserSpeaking := false }
  | VoiceEvent.transcriptionReceived participant trackSid segs =>
      handleTranscriptionReceived now localId participant trackSid segs s

/-- Fires every pending 500ms reset timer due at or before time t: each
firing sets isUserSpeaking and isTranscribing to false unconditionally
(the setTimeout callback checks nothing). -/
def fireDueResets (t : Nat) (s : HookState) : HookState :=
  let due := s.pendingResets.filter (fun ft => decide (ft ≤ t))
  if due.isEmpty then s
  else
    { s with
      isUserSpeaking := false
      isTranscribing := false
      pendingResets := s.pendingResets.filter (fun ft => decide (t < ft)) }

/-- One timed step of the event loop: timers due before the event fire
first, then the event handler runs. -/
def stepTimed (localId : String) (s : HookState) (te : Nat × VoiceEvent) : HookState :=
  handleEvent te.1 localId te.2 (fireDueResets te.1 s)

/-- Runs a time-stamped event trace, then fires all timers due by endTime. -/
def runTimeline (localId : String) (events : List (Nat × VoiceEvent))
    (endTime : Nat) (s : HookState) : HookState :=
  fireDueResets endTime (events.foldl (stepTimed localId) s)

/-- The body of startInference once past the guards (the try block): sets
loading and CONNECTING, awaits the agent lookup, then the provisioning call
(storing sessionRef and creating the room), then issues the transport
connect; any rejection lands in the catch, which sets ERROR, clears loading
and toasts the message. -/
def startAttempt (agentRes : Except String Unit) (provRes : Except String VoiceSession)
    (connRes : Except String Unit) (s : HookState) : HookState × List Effect :=
  let s1 := { s with isLoading := true, inferenceState := InferenceState.CONNECTING }
  match agentRes with
  | Except.error msg =>
      ({ s1 with inferenceState := InferenceState.ERROR, isLoading := false },
       [Effect.getAgentCall, Effect.toastError msg])
  | Except.ok _ =>
    match provRes with
    | Except.error msg =>
        ({ s1 with inferenceState := InferenceState.ERROR, isLoading := false },
         [Effect.getAgentCall, Effect.provisionCall, Effect.toastError msg])
    | Except.ok sess =>
      let s2 := { s1 with
        sessionRef := some sess
        roomRef := some { localIdentity := sess.participantIdentity } }
      match connRes with
      | Except.error msg =>
          ({ s2 with inferenceState := InferenceState.ERROR, isLoading := false },
           [Effect.getAgentCall, Effect.provisionCall, Effect.transportConnect,
            Effect.toastError msg])
      | Except.ok _ =>
          (s2, [Effect.getAgentCall, Effect.provisionCall, Effect.transportConnect])

/-- startInference: guard on a present agent id (toast and return), then the
non-IDLE guard (log and return with no effect), then the attempt body.
agentIdOk embeds whether targetAgentId or the configured agentId is
non-empty. -/
def startInference (agentIdOk : Bool) (agentRes : Except String Unit)
    (provRes : Except String VoiceSession) (connRes : Except String Unit)
    (s : HookState) : HookState × List Effect :=
  if agentIdOk = false then
    (s, [Effect.toastError "Agent ID is required"])
  else if s.inferenceState = InferenceState.IDLE then
    startAttempt agentRes provRes connRes s
  else
    (s, [])

/-- Fault injection for the cleanup steps of stopInference: whether the
backend session-end fetch rejects, whether audioTrack.stop throws, whether
room.disconnect rejects. -/
structure StopFaults where
  backendFails : Bool
  trackStopFails : Bool
  disconnectFails : Bool
deriving DecidableEq

/-- The backend session-end phase of stopInference: runs only when a session
descriptor exists; it sits inside try/catch, so a failure is only logged. -/
def stopBackendEffects (f : StopFaults) (s : HookState) : List Effect :=
  match s.sessionRef with
  | some _ =>
      if f.backendFails then
        [Effect.backendSessionEnd, Effect.logError "Error stopping session on backend"]
      else
        [Effect.backendSessionEnd]
  | none => []

/-- The tail of stopInference: null the session ref, reset the connected,
lifecycle, mic, speaking and loading state, toast success. Returns the final
state, the accumulated effects, and no thrown error. -/
def stopFinalPhase (s : HookState) (effs : List Effect) :
    HookState × List Effect × Option String :=
  ({ s with
      sessionRef := none
      isConnected := false
      inferenceState := InferenceState.IDLE
      isMicOn := false
      isUserSpeaking := false
      isLoading := false },
   effs ++ [Effect.toastSuccess "Voice session stopped"], none)

/-- The DOM cleanup phase: remove every attached audio element whose
srcObject is set (one removal effect per element), then finish. -/
def stopDomPhase (s : HookState) (effs : List Effect) :
    HookState × List Effect × Option String :=
  let removed := s.audioElements.filter (fun a => a.srcObject)
  stopFinalPhase
    { s with audioElements := s.audioElements.filter (fun a => !a.srcObject) }
    (effs ++ removed.map (fun _ => Effect.removeAudioElement))

/-- The room phase: if a room is held, await disconnect (not wrapped in any
try, so a rejection propagates and aborts the remaining steps with the room
ref still set), else fall through. -/
def stopRoomPhase (f : StopFaults) (s : HookState) (effs : List Effect) :
    HookState × List Effect × Option String :=
  match s.roomRef with
  | some _ =>
      if f.disconnectFails then
        (s, effs ++ [Effect.transportDisconnect], some "disconnect failed")
      else
        stopDomPhase { s with roomRef := none } (effs ++ [Effect.transportDisconnect])
  | none => stopDomPhase s effs

/-- The track phase: if an audio track is held, stop it (again not wrapped,
so a throw propagates with the track ref still set), else fall through. -/
def stopTrackPhase (f : StopFaults) (s : HookState) (effs : List Effect) :
    HookState × List Effect × Option String :=
  match s.audioTrackRef with
  | some _ =>
      if f.trackStopFails then
        (s, effs ++ [Effect.trackStop], some "track stop failed")
      else
        stopRoomPhase f { s with audioTrackRef := none } (effs ++ [Effect.trackStop])
  | none => stopRoomPhase f s effs

/-- stopInference: backend session-end first (caught), then track stop, room
disconnect, DOM audio cleanup, and the state resets. -/
def stopInference (f : StopFaults) (s : HookState) :
    HookState × List Effect × Option String :=
  stopTrackPhase f s (stopBackendEffects f s)

/-- clearTranscription: empties the transcript and bumps the change counter
by one; it touches nothing else. -/
def clearTranscription (s : HookState) : HookState :=
  { s with
    transcription := []
    transcriptionUpdateTrigger := s.transcriptionUpdateTrigger + 1 }

/-- Two-digit zero padding for time components. -/
def pad2 (n : Nat) : String :=
  if n < 10 then "0" ++ toString n else toString n

/-- HH:MM:SS rendering of a timestamp in seconds; this embeds the
toLocaleTimeString call of the source as its 24-hour rendering. -/
def formatTime (t : Nat) : String :=
  pad2 (t / 3600 % 24) ++ ":" ++ pad2 (t % 3600 / 60) ++ ":" ++ pad2 (t % 60)

/-- The speaker label used in the export line. -/
def speakerString : Speaker → String
  | Speaker.user => "user"
  | Speaker.agent => "agent"

/-- One export line per entry, in the shape of the template literal of
saveTranscription. -/
def formatEntry (e : TranscriptionEntry) : String :=
  "[" ++ formatTime e.timestamp ++ "] " ++ speakerString e.speaker ++ ": " ++ e.text

/-- The text content of the blob produced by saveTranscription: final
entries only, in transcript order, one formatted line each, newline
joined. -/
def saveTranscriptionText (ts : List TranscriptionEntry) : String :=
  String.intercalate "\n" ((ts.filter (fun e => e.isFinal)).map formatEntry)

/-- A concrete session descriptor used by witnesses. -/
def sampleSession : VoiceSession where
  sessionId := "s1"
  roomName := "r1"
  token := "t1"
  url := "wss://x"
  participantIdentity := "me"
  status := "ok"

/-- A concrete mid-session state: ACTIVE, everything live, one attached
media-sink element, nonzero counters. -/
def sampleActiveState : HookState where
  inferenceState := InferenceState.ACTIVE
  isLoading := false
  isMicOn := true
  isConnected := true
  isUserSpeaking := true
  isTranscribing := true
  transcription := []
  transcriptionUpdateTrigger := 3
  roomRef := some { localIdentity := "me" }
  sessionRef := some sampleSession
  audioTrackRef := some ()
  transcriptionIdCounter := 2
  audioElements := [{ srcObject := true }, { srcObject := false }]
  pendingResets := []

/-- A concrete CONNECTING state used by the C1 witness. -/
def sampleConnectingState : HookState :=
  { initialHookState with inferenceState := InferenceState.CONNECTING }

/-- The fault-free cleanup environment. -/
def noFaults : StopFaults where
  backendFails := false
  trackStopFails := false
  disconnectFails := false

/-- Claim C1: a startInference call made while the lifecycle state is not
Idle leaves the state unchanged and issues neither the agent lookup, nor the
provisioning call, nor the transport connect; in particular no provisioning
or transport-connect effect is ever produced by a call made in the
Connecting or Active states. -/
theorem startInference_nonidle_noop (agentIdOk : Bool) (agentRes : Except String Unit)
    (provRes : Except String VoiceSession) (connRes : Except String Unit)
    (s : HookState) (h : s.inferenceState ≠ InferenceState.IDLE) :
    (startInference agentIdOk agentRes provRes connRes s).1 = s ∧
    Effect.getAgentCall ∉ (startInference agentIdOk agentRes provRes connRes s).2 ∧
    Effect.provisionCall ∉ (startInference agentIdOk agentRes provRes connRes s).2 ∧
    Effect.transportConnect ∉ (startInference agentIdOk agentRes provRes connRes s).2 := by
  unfold startInference
  cases agentIdOk <;> simp [h]

/-- Witness for C1 at the concrete Connecting state. -/
theorem startInference_nonidle_noop_witness :
    (startInference true (Except.ok ()) (Except.ok sampleSession) (Except.ok ())
        sampleConnectingState).1 = sampleConnectingState ∧
    Effect.getAgentCall ∉ (startInference true (Except.ok ()) (Except.ok sampleSession)
        (Except.ok ()) sampleConnectingState).2 ∧
    Effect.provisionCall ∉ (startInference true (Except.ok ()) (Except.ok sampleSession)
        (Except.ok ()) sampleConnectingState).2 ∧
    Effect.transportConnect ∉ (startInference true (Except.ok ()) (Except.ok sampleSession)
        (Except.ok ()) sampleConnectingState).2 :=
  startInference_nonidle_noop true (Except.ok ()) (Except.ok sampleSession) (Except.ok ())
    sampleConnectingState (by decide)

/-- Claim C7: when the provisioning call rejects, the state becomes Error,
the loading flag is cleared, the message is surfaced as a toast, and no
transport connect is attempted for that start attempt. -/
theorem startInference_provision_error (msg : String) (connRes : Except String Unit)
    (s : HookState) (h : s.inferenceState = InferenceState.IDLE) :
    (startInference true (Except.ok ()) (Except.error msg) connRes s).1.inferenceState
        = InferenceState.ERROR ∧
    (startInference true (Except.ok ()) (Except.error msg) connRes s).1.isLoading = false ∧
    Effect.toastError msg ∈ (startInference true (Except.ok ()) (Except.error msg) connRes s).2 ∧
    Effect.transportConnect ∉ (startInference true (Except.ok ()) (Except.error msg) connRes s).2 := by
  unfold startInference startAttempt
  simp [h]

/-- Witness for C7 at the initial state. -/
theorem startInference_provision_error_witness :
    (startInference true (Except.ok ()) (Except.error "network down") (Except.ok ())
        initialHookState).1.inferenceState = InferenceState.ERROR ∧
    (startInference true (Except.ok ()) (Except.error "network down") (Except.ok ())
        initialHookState).1.isLoading = false ∧
    Effect.toastError "network down" ∈ (startInference true (Except.ok ())
        (Except.error "network down") (Except.ok ()) initialHookState).2 ∧
    Effect.transportConnect ∉ (startInference true (Except.ok ())
        (Except.error "network down") (Except.ok ()) initialHookState).2 :=
  startInference_provision_error "network down" (Except.ok ()) initialHookState (by decide)

/-- Claim C8 counterexample: clearTranscription on a state whose change
counter is 3 and entry-id counter is 2 empties the transcript but leaves the
change counter at 4 and the id counter at 2; neither counter is back at its
initial value 0, refuting the reset-to-initial-values claim. -/
theorem clearTranscription_counters_not_reset :
    (clearTranscription sampleActiveState).transcription = [] ∧
    (clearTranscription sampleActiveState).transcriptionUpdateTrigger = 4 ∧
    (clearTranscription sampleActiveState).transcriptionUpdateTrigger ≠ 0 ∧
    (clearTranscription sampleActiveState).transcriptionIdCounter = 2 ∧
    (clearTranscription sampleActiveState).transcriptionIdCounter ≠ 0 := by
  decide

/-- Claim C8 amended: clearTranscription is total in every lifecycle state,
resets the transcript to the empty sequence, increments the change counter
by one, and leaves the entry-id counter and the lifecycle state unchanged. -/
theorem clearTranscription_resets_list_bumps_trigger (s : HookState) :
    (clearTranscription s).transcription = [] ∧
    (clearTranscription s).transcriptionUpdateTrigger = s.transcriptionUpdateTrigger + 1 ∧
    (clearTranscription s).transcriptionIdCounter = s.transcriptionIdCounter ∧
    (clearTranscription s).inferenceState = s.inferenceState := by
  simp [clearTranscription]

/-- Claim C9 counterexample: after a fault-free stopInference has returned
the machine to Idle, a late Connected event from the stale attempt still
flips the state to Active, sets the connected flag, and re-enables the
microphone: the handler carries no per-attempt identifier and no
current-state check. -/
theorem connected_event_after_stop_not_noop :
    (stopInference noFaults sampleActiveState).1.inferenceState = InferenceState.IDLE ∧
    (onConnected true (stopInference noFaults sampleActiveState).1).inferenceState
        = InferenceState.ACTIVE ∧
    (onConnected true (stopInference noFaults sampleActiveState).1).isConnected = true ∧
    (onConnected true (stopInference noFaults sampleActiveState).1).isMicOn = true := by
  decide

/-- Claim C9 amended: the Connected handler is unguarded: from every state,
including states the machine reached after stopInference, its resolution
sets the lifecycle state to Active, the connected flag to true and the
loading flag to false, and on a successful microphone enable it sets the
mic-on flag to true. -/
theorem onConnected_unguarded (s : HookState) :
    (onConnected true s).inferenceState = InferenceState.ACTIVE ∧
    (onConnected false s).inferenceState = InferenceState.ACTIVE ∧
    (onConnected true s).isConnected = true ∧
    (onConnected false s).isConnected = true ∧
    (onConnected true s).isLoading = false ∧
    (onConnected false s).isLoading = false ∧
    (onConnected true s).isMicOn = true ∧
    (onConnected false s).isMicOn = s.isMicOn := by
  simp [onConnected]

/-- Unfolding of the transcription handler on an empty batch. -/
theorem handleTR_nil (now : Nat) (localId : String) (participant : Option String)
    (trackSid : Option String) (s : HookState) :
    handleTranscriptionReceived now localId participant trackSid [] s = s := rfl

/-- Unfolding of the transcription handler on a cons batch. -/
theorem handleTR_cons (now : Nat) (localId : String) (participant : Option String)
    (trackSid : Option String) (seg : Segment) (rest : List Segment) (s : HookState) :
    handleTranscriptionReceived now localId participant trackSid (seg :: rest) s
      = handleTranscriptionReceived now localId participant trackSid rest
          (handleSegment now localId participant trackSid seg s) := rfl

/-- One segment only ever appends to the pending-reset list. -/
theorem handleSegment_pendingResets (now : Nat) (localId : String)
    (participant : Option String) (trackSid : Option String) (seg : Segment)
    (s : HookState) :
    ∃ t, (handleSegment now localId participant trackSid seg s).pendingResets
            = s.pendingResets ++ t := by
  unfold handleSegment
  by_cases hu : segIsUser localId participant = true <;>
    by_cases hf : seg.final = true <;>
    simp [hu, hf]

/-- A whole transcription batch only ever appends to the pending-reset list. -/
theorem handleTR_pendingResets (now : Nat) (localId : String)
    (participant : Option String) (trackSid : Option String) (segs : List Segment) :
    ∀ s : HookState,
      ∃ t, (handleTranscriptionReceived now localId participant trackSid segs s).pendingResets
              = s.pendingResets ++ t := by
  induction segs with
  | nil => intro s; exact ⟨[], by simp [handleTR_nil]⟩
  | cons seg rest ih =>
      intro s
      obtain ⟨t1, h1⟩ := handleSegment_pendingResets now localId participant trackSid seg s
      obtain ⟨t2, h2⟩ := ih (handleSegment now localId participant trackSid seg s)
      exact ⟨t1 ++ t2, by rw [handleTR_cons, h2, h1, List.append_assoc]⟩

/-- The concrete trace refuting the cancellation half of claim C2: a final
user-attributed segment at t = 0 (schedules a reset at t = 500), then fresh
speaking evidence, a non-final user segment, at t = 300. -/
def staleTimerTrace : List (Nat × VoiceEvent) :=
  [(0, VoiceEvent.transcriptionReceived (some "me") none [{ text := "hello", final := true }]),
   (300, VoiceEvent.transcriptionReceived (some "me") none [{ text := "more", final := false }])]

/-- Claim C2 counterexample: just after the new evidence (t = 400) the user
is marked speaking, yet once the stale 500ms timer scheduled at t = 0 has
fired (by t = 1000) both flags are false: the reset scheduled before the new
evidence was neither cancelled nor replaced, and it overwrote the newer
evidence, refuting last-scheduled-wins. -/
theorem stale_timer_overwrites_new_evidence :
    (runTimeline "me" staleTimerTrace 400 initialHookState).isUserSpeaking = true ∧
    (runTimeline "me" staleTimerTrace 400 initialHookState).isTranscribing = true ∧
    (runTimeline "me" staleTimerTrace 1000 initialHookState).isUserSpeaking = false ∧
    (runTimeline "me" staleTimerTrace 1000 initialHookState).isTranscribing = false := by
  decide

/-- Claim C2 amended: a final user-attributed segment does schedule the
speaking and transcribing reset exactly 500ms later (and still marks the
user speaking immediately), but the schedule is never cancelled or replaced:
every event handler only appends to the pending-reset list, so a previously
scheduled reset always fires and can overwrite newer speaking evidence. -/
theorem final_segment_reset_uncancellable (now : Nat) (localId : String)
    (trackSid : Option String) (txt : String) (s : HookState) :
    (handleSegment now localId (some localId) trackSid { text := txt, final := true } s).pendingResets
        = s.pendingResets ++ [now + 500] ∧
    (handleSegment now localId (some localId) trackSid { text := txt, final := true } s).isUserSpeaking
        = true ∧
    (∀ e : VoiceEvent,
        ∃ t, (handleEvent now localId e s).pendingResets = s.pendingResets ++ t) := by
  refine ⟨?_, ?_, ?_⟩
  · unfold handleSegment
    simp [segIsUser]
  · unfold handleSegment
    simp [segIsUser]
  · intro e
    cases e with
    | connected micOk =>
        exact ⟨[], by cases micOk <;> simp [handleEvent, onConnected]⟩
    | disconnected => exact ⟨[], by simp [handleEvent]⟩
    | activeSpeakersChanged speakers =>
        refine ⟨[], ?_⟩
        simp only [handleEvent]
        split <;> simp
    | trackPublished identity audioKind =>
        refine ⟨[], ?_⟩
        simp only [handleEvent]
        split <;> simp
    | trackUnpublished identity audioKind =>
        refine ⟨[], ?_⟩
        simp only [handleEvent]
        split <;> simp
    | trackSubscribed audioKind =>
        refine ⟨[], ?_⟩
        cases audioKind <;> simp [handleEvent]
    | localTrackMuted => exact ⟨[], by simp [handleEvent]⟩
    | transcriptionReceived participant trackSid2 segs =>
        exact handleTR_pendingResets now localId participant trackSid2 segs s

/-- One segment appends exactly its entry, built at the current id counter. -/
theorem handleSegment_transcription (now : Nat) (localId : String)
    (participant : Option String) (trackSid : Option String) (seg : Segment)
    (s : HookState) :
    (handleSegment now localId participant trackSid seg s).transcription
      = s.transcription
        ++ [mkEntry now (segIsUser localId participant) participant trackSid
              s.transcriptionIdCounter seg] := by
  unfold handleSegment
  by_cases hu : segIsUser localId participant = true <;>
    by_cases hf : seg.final = true <;>
    simp [hu, hf]

/-- One segment advances the id counter by exactly one. -/
theorem handleSegment_idCounter (now : Nat) (localId : String)
    (participant : Option String) (trackSid : Option String) (seg : Segment)
    (s : HookState) :
    (handleSegment now localId participant trackSid seg s).transcriptionIdCounter
      = s.transcriptionIdCounter + 1 := by
  unfold handleSegment
  by_cases hu : segIsUser localId participant = true <;>
    by_cases hf : seg.final = true <;>
    simp [hu, hf]

/-- A transcription batch appends exactly its entries, in segment order,
with consecutive ids drawn from the id counter. -/
theorem handleTR_transcription (now : Nat) (localId : String)
    (participant : Option String) (trackSid : Option String) (segs : List Segment) :
    ∀ s : HookState,
      (handleTranscriptionReceived now localId participant trackSid segs s).transcription
        = s.transcription
          ++ mkEntries now localId participant trackSid s.transcriptionIdCounter segs := by
  induction segs with
  | nil => intro s; simp [handleTR_nil, mkEntries]
  | cons seg rest ih =>
      intro s
      rw [handleTR_cons, ih, handleSegment_transcription, handleSegment_idCounter]
      simp [mkEntries]

/-- Every event handler only ever appends to the transcript: no event
removes or reorders entries. -/
theorem handleEvent_transcription_append (now : Nat) (localId : String)
    (e : VoiceEvent) (s : HookState) :
    ∃ t, (handleEvent now localId e s).transcription = s.transcription ++ t := by
  cases e with
  | connected micOk => exact ⟨[], by cases micOk <;> simp [handleEvent, onConnected]⟩
  | disconnected => exact ⟨[], by simp [handleEvent]⟩
  | activeSpeakersChanged speakers =>
      refine ⟨[], ?_⟩
      simp only [handleEvent]
      split <;> simp
  | trackPublished identity audioKind =>
      refine ⟨[], ?_⟩
      simp only [handleEvent]
      split <;> simp
  | trackUnpublished identity audioKind =>
      refine ⟨[], ?_⟩
      simp only [handleEvent]
      split <;> simp
  | trackSubscribed audioKind =>
      refine ⟨[], ?_⟩
      cases audioKind <;> simp [handleEvent]
  | localTrackMuted => exact ⟨[], by simp [handleEvent]⟩
  | transcriptionReceived participant trackSid segs =>
      exact ⟨_, handleTR_transcription now localId participant trackSid segs s⟩

/-- Claim C3: transcript entries appear in exactly arrival order; every
transcription batch appends its entries in segment order at the tail, no
event handler ever removes or reorders entries, and the export text consists
of exactly the isFinal entries, kept in that same arrival order (a sublist
of the transcript), each serialized as a bracketed timestamp, speaker label
and text, joined by newlines. -/
theorem transcript_order_and_export :
    (∀ (now : Nat) (localId : String) (participant trackSid : Option String)
        (segs : List Segment) (s : HookState),
        (handleTranscriptionReceived now localId participant trackSid segs s).transcription
          = s.transcription
            ++ mkEntries now localId participant trackSid s.transcriptionIdCounter segs) ∧
    (∀ (now : Nat) (localId : String) (e : VoiceEvent) (s : HookState),
        ∃ t, (handleEvent now localId e s).transcription = s.transcription ++ t) ∧
    (∀ ts : List TranscriptionEntry,
        saveTranscriptionText ts
            = String.intercalate "\n" ((ts.filter (fun e => e.isFinal)).map formatEntry) ∧
        List.Sublist (ts.filter (fun e => e.isFinal)) ts ∧
        ∀ e : TranscriptionEntry,
          e ∈ ts.filter (fun x => x.isFinal) ↔ e ∈ ts ∧ e.isFinal = true) := by
  refine ⟨handleTR_transcription, handleEvent_transcription_append, fun ts => ⟨rfl, ?_, ?_⟩⟩
  · exact List.filter_sublist ts
  · intro e
    simp [List.mem_filter]

/-- Filtering the media-sink elements out of an already cleaned element list
finds nothing. -/
theorem audioFilter_no_src (l : List AudioElement) :
    ((l.filter (fun a => !a.srcObject)).filter (fun a => a.srcObject)) = [] := by
  induction l with
  | nil => rfl
  | cons a t ih => cases h : a.srcObject <;> simp [h, ih]

/-- Cleaning an already cleaned element list changes nothing. -/
theorem audioFilter_idem (l : List AudioElement) :
    ((l.filter (fun a => !a.srcObject)).filter (fun a => !a.srcObject))
      = l.filter (fun a => !a.srcObject) := by
  induction l with
  | nil => rfl
  | cons a t ih => cases h : a.srcObject <;> simp [h, ih]

/-- Claim C10: stopInference leaves the transcript, the change counter, the
transcribing flag and the entry-id counter untouched, from every prior state
and under every fault pattern. -/
theorem stopInference_transcript_frame (f : StopFaults) (s : HookState) :
    (stopInference f s).1.transcription = s.transcription ∧
    (stopInference f s).1.transcriptionUpdateTrigger = s.transcriptionUpdateTrigger ∧
    (stopInference f s).1.isTranscribing = s.isTranscribing ∧
    (stopInference f s).1.transcriptionIdCounter = s.transcriptionIdCounter := by
  cases htr : s.audioTrackRef <;> cases hr : s.roomRef <;>
    cases hts : f.trackStopFails <;> cases hd : f.disconnectFails <;>
    simp [stopInference, stopTrackPhase, stopRoomPhase, stopDomPhase, stopFinalPhase,
      htr, hr, hts, hd]

/-- Claim C4: if neither the track stop nor the transport disconnect faults,
stopInference completes without throwing and, from every prior state, leaves
the machine Idle with the mic-on, connected, user-speaking and loading flags
false, the session, room and audio-track references cleared, and no
media-sink audio element (an element with a srcObject) attached. -/
theorem stopInference_full_reset (f : StopFaults) (s : HookState)
    (h1 : f.trackStopFails = false) (h2 : f.disconnectFails = false) :
    (stopInference f s).2.2 = none ∧
    (stopInference f s).1.inferenceState = InferenceState.IDLE ∧
    (stopInference f s).1.isMicOn = false ∧
    (stopInference f s).1.isConnected = false ∧
    (stopInference f s).1.isUserSpeaking = false ∧
    (stopInference f s).1.isLoading = false ∧
    (stopInference f s).1.sessionRef = none ∧
    (stopInference f s).1.roomRef = none ∧
    (stopInference f s).1.audioTrackRef = none ∧
    ∀ a ∈ (stopInference f s).1.audioElements, a.srcObject = false := by
  cases htr : s.audioTrackRef <;> cases hr : s.roomRef <;>
    simp [stopInference, stopTrackPhase, stopRoomPhase, stopDomPhase, stopFinalPhase,
      h1, h2, htr, hr, List.mem_filter]

/-- Witness for C4 at the concrete mid-session state. -/
theorem stopInference_full_reset_witness :
    (stopInference noFaults sampleActiveState).2.2 = none ∧
    (stopInference noFaults sampleActiveState).1.inferenceState = InferenceState.IDLE ∧
    (stopInference noFaults sampleActiveState).1.isMicOn = false ∧
    (stopInference noFaults sampleActiveState).1.isConnected = false ∧
    (stopInference noFaults sampleActiveState).1.isUserSpeaking = false ∧
    (stopInference noFaults sampleActiveState).1.isLoading = false ∧
    (stopInference noFaults sampleActiveState).1.sessionRef = none ∧
    (stopInference noFaults sampleActiveState).1.roomRef = none ∧
    (stopInference noFaults sampleActiveState).1.audioTrackRef = none ∧
    ∀ a ∈ (stopInference noFaults sampleActiveState).1.audioElements, a.srcObject = false :=
  stopInference_full_reset noFaults sampleActiveState rfl rfl

/-- Claim C5: with the first call free of cleanup faults, stopping twice
consecutively from any state throws no error in either call, leaves exactly
the state one call produces, and the second call releases nothing: whatever
the fault pattern of the second call, its only effect is the success toast,
because every cleanup step first checks its resource (session descriptor,
audio track, room, media-sink elements) and finds it already released. -/
theorem stopInference_idempotent (f1 f2 : StopFaults) (s : HookState)
    (h1 : f1.trackStopFails = false) (h2 : f1.disconnectFails = false) :
    (stopInference f1 s).2.2 = none ∧
    (stopInference f2 (stopInference f1 s).1).2.2 = none ∧
    (stopInference f2 (stopInference f1 s).1).1 = (stopInference f1 s).1 ∧
    (stopInference f2 (stopInference f1 s).1).2.1
        = [Effect.toastSuccess "Voice session stopped"] := by
  cases htr : s.audioTrackRef <;> cases hr : s.roomRef <;>
    simp [stopInference, stopTrackPhase, stopRoomPhase, stopDomPhase, stopFinalPhase,
      stopBackendEffects, h1, h2, htr, hr, audioFilter_no_src, audioFilter_idem]

/-- Witness for C5 at the concrete mid-session state, with every fault
injected into the second call. -/
theorem stopInference_idempotent_witness :
    (stopInference noFaults sampleActiveState).2.2 = none ∧
    (stopInference { backendFails := true, trackStopFails := true, disconnectFails := true }
        (stopInference noFaults sampleActiveState).1).2.2 = none ∧
    (stopInference { backendFails := true, trackStopFails := true, disconnectFails := true }
        (stopInference noFaults sampleActiveState).1).1
      = (stopInference noFaults sampleActiveState).1 ∧
    (stopInference { backendFails := true, trackStopFails := true, disconnectFails := true }
        (stopInference noFaults sampleActiveState).1).2.1
      = [Effect.toastSuccess "Voice session stopped"] :=
  stopInference_idempotent noFaults
    { backendFails := true, trackStopFails := true, disconnectFails := true }
    sampleActiveState rfl rfl

/-- The DOM phase only appends to the already accumulated effects. -/
theorem stopDomPhase_effects_append (s : HookState) (effs : List Effect) :
    ∃ r, (stopDomPhase s effs).2.1 = effs ++ r := by
  refine ⟨(s.audioElements.filter (fun a => a.srcObject)).map (fun _ => Effect.removeAudioElement)
    ++ [Effect.toastSuccess "Voice session stopped"], ?_⟩
  simp [stopDomPhase, stopFinalPhase]

/-- The room phase only appends to the already accumulated effects. -/
theorem stopRoomPhase_effects_append (f : StopFaults) (s : HookState) (effs : List Effect) :
    ∃ r, (stopRoomPhase f s effs).2.1 = effs ++ r := by
  unfold stopRoomPhase
  cases s.roomRef with
  | some rh =>
      cases hd : f.disconnectFails
      · obtain ⟨r, h⟩ := stopDomPhase_effects_append { s with roomRef := none }
          (effs ++ [Effect.transportDisconnect])
        exact ⟨[Effect.transportDisconnect] ++ r, by simp [hd, h]⟩
      · exact ⟨[Effect.transportDisconnect], by simp [hd]⟩
  | none => exact stopDomPhase_effects_append s effs

/-- The track phase only appends to the already accumulated effects. -/
theorem stopTrackPhase_effects_append (f : StopFaults) (s : HookState) (effs : List Effect) :
    ∃ r, (stopTrackPhase f s effs).2.1 = effs ++ r := by
  unfold stopTrackPhase
  cases s.audioTrackRef with
  | some u =>
      cases ht : f.trackStopFails
      · obtain ⟨r, h⟩ := stopRoomPhase_effects_append f { s with audioTrackRef := none }
          (effs ++ [Effect.trackStop])
        exact ⟨[Effect.trackStop] ++ r, by simp [ht, h]⟩
      · exact ⟨[Effect.trackStop], by simp [ht]⟩
  | none => exact stopRoomPhase_effects_append f s effs

/-- The effects of stopInference start with the backend session-end phase. -/
theorem stopInference_effects_split (f : StopFaults) (s : HookState) :
    ∃ r, (stopInference f s).2.1 = stopBackendEffects f s ++ r :=
  stopTrackPhase_effects_append f s (stopBackendEffects f s)

/-- Claim C6 counterexample: from the concrete mid-session state, a rejecting
transport disconnect makes stopInference itself reject (the error is
propagated to the caller), and the remaining cleanup steps never run: the
session descriptor is still set, the lifecycle state is still Active, the
connected flag is still true and the media-sink audio element is still
attached, refuting "never propagated and never blocks the remaining steps". -/
theorem stopInference_disconnect_fault_propagates :
    (stopInference { backendFails := false, trackStopFails := false, disconnectFails := true }
        sampleActiveState).2.2 = some "disconnect failed" ∧
    (stopInference { backendFails := false, trackStopFails := false, disconnectFails := true }
        sampleActiveState).1.sessionRef ≠ none ∧
    (stopInference { backendFails := false, trackStopFails := false, disconnectFails := true }
        sampleActiveState).1.inferenceState = InferenceState.ACTIVE ∧
    (stopInference { backendFails := false, trackStopFails := false, disconnectFails := true }
        sampleActiveState).1.isConnected = true ∧
    Effect.removeAudioElement ∉ (stopInference
        { backendFails := false, trackStopFails := false, disconnectFails := true }
        sampleActiveState).2.1 := by
  decide

/-- When neither the track stop nor the disconnect faults, stopInference
returns without a thrown error and ends in the Idle state. -/
theorem stopInference_no_fault_completes (f : StopFaults) (s : HookState)
    (h1 : f.trackStopFails = false) (h2 : f.disconnectFails = false) :
    (stopInference f s).2.2 = none ∧
    (stopInference f s).1.inferenceState = InferenceState.IDLE := by
  cases htr : s.audioTrackRef <;> cases hr : s.roomRef <;>
    simp [stopInference, stopTrackPhase, stopRoomPhase, stopDomPhase, stopFinalPhase,
      h1, h2, htr, hr]

/-- The fault pattern with only the backend session-end call failing. -/
def backendOnlyFault : StopFaults where
  backendFails := true
  trackStopFails := false
  disconnectFails := false

/-- The fault pattern with the transport disconnect failing. -/
def disconnectFaultWith (b : Bool) : StopFaults where
  backendFails := b
  trackStopFails := false
  disconnectFails := true

/-- Claim C6 amended: whenever a session descriptor exists, the backend
session-end notification is always the first issued cleanup effect, before
any local release, and its failure is absorbed: with only the backend
faulting, stopInference still completes without throwing, reaches Idle, and
logs the failure. But a failure of the transport-disconnect step is not
caught: it is propagated to the caller and aborts the remaining steps,
leaving the lifecycle state and the session descriptor untouched and the
media-sink elements unremoved. -/
theorem stopInference_cleanup_error_policy (f : StopFaults) (s : HookState) :
    (∀ sess : VoiceSession,
        ((stopInference f { s with sessionRef := some sess }).2.1).head?
          = some Effect.backendSessionEnd) ∧
    ((stopInference backendOnlyFault s).2.2 = none ∧
     (stopInference backendOnlyFault s).1.inferenceState = InferenceState.IDLE) ∧
    (∀ sess : VoiceSession,
        Effect.logError "Error stopping session on backend"
          ∈ (stopInference backendOnlyFault { s with sessionRef := some sess }).2.1) ∧
    (∀ rh : RoomHandle,
        (stopInference (disconnectFaultWith f.backendFails)
            { s with audioTrackRef := none, roomRef := some rh }).2.2
          = some "disconnect failed" ∧
        (stopInference (disconnectFaultWith f.backendFails)
            { s with audioTrackRef := none, roomRef := some rh }).1.inferenceState
          = s.inferenceState ∧
        (stopInference (disconnectFaultWith f.backendFails)
            { s with audioTrackRef := none, roomRef := some rh }).1.sessionRef
          = s.sessionRef ∧
        Effect.removeAudioElement ∉ (stopInference (disconnectFaultWith f.backendFails)
            { s with audioTrackRef := none, roomRef := some rh }).2.1) := by
  refine ⟨?_, ?_, ?_, ?_⟩
  · intro sess
    obtain ⟨r, h⟩ := stopInference_effects_split f { s with sessionRef := some sess }
    rw [h]
    cases hb : f.backendFails <;> simp [stopBackendEffects, hb]
  · exact stopInference_no_fault_completes backendOnlyFault s rfl rfl
  · intro sess
    obtain ⟨r, h⟩ := stopInference_effects_split backendOnlyFault
      { s with sessionRef := some sess }
    rw [h]
    simp [stopBackendEffects, backendOnlyFault]
  · intro rh
    cases hsr : s.sessionRef <;> cases hb : f.backendFails <;>
      simp [stopInference, stopTrackPhase, stopRoomPhase, stopBackendEffects,
        disconnectFaultWith, hsr, hb]
